import Mathlib

/-!
Shallow embedding of the mind-balance decision-scoring engine
(src/tools/mind-balance.ts) over real arithmetic, together with the
default configuration record (src/config/types.ts, DEFAULT_CONFIG) and
proofs of the specified properties of MindBalanceTool.execute.

Each definition mirrors one line or local constant of the source:
JavaScript numbers become real numbers, optional fields become Option,
`x ?? y` becomes Option.getD / an explicit match, and thrown errors
become an Except value.
-/

/-- AdvisoryMode: angel | demon | blend | probabilistic. -/
inductive AdvisoryMode where
  | angel
  | demon
  | blend
  | probabilistic
deriving DecidableEq, Repr

/-- Scoring rules: brier | log. -/
inductive Rule where
  | brier
  | log
deriving DecidableEq, Repr

/-- ScoringConfig: rules?, abstainThreshold?, abstentionScore? (number | null).
The outer Option of abstentionScore is field presence, the inner one is
number-vs-null. -/
structure ScoringConfig where
  rules : Option (List Rule) := none
  abstainThreshold : Option ℝ := none
  abstentionScore : Option (Option ℝ) := none

/-- The mindBalance section of AhrimagonConfig (src/config/types.ts). -/
structure MindBalanceConfig where
  abstainThreshold : Option ℝ := none
  tanClamp : Option ℝ := none
  normalize : Option Bool := none
  scoring : Option ScoringConfig := none

/-- DEFAULT_CONFIG.mindBalance from src/config/types.ts: abstainThreshold 0.70,
tanClamp 3.0, normalize true, scoring with rules [brier, log] and
abstentionScore 0.0 (and no abstainThreshold field inside scoring). -/
def defaultMindBalanceConfig : MindBalanceConfig where
  abstainThreshold := some 0.70
  tanClamp := some 3.0
  normalize := some true
  scoring := some { rules := some [Rule.brier, Rule.log],
                    abstainThreshold := none,
                    abstentionScore := some (some 0.0) }

/-- MindBalanceArgs: the input record of the tool. -/
structure MindBalanceArgs where
  topic : String
  tags : Option (List String) := none
  theta : ℝ
  phi : ℝ
  cosine : ℝ
  tangent : ℝ
  mode : AdvisoryMode
  tanClamp : Option ℝ := none
  normalize : Option Bool := none
  scoring : Option ScoringConfig := none

/-- Decision: positive | negative | abstain. -/
inductive Decision where
  | positive
  | negative
  | abstain
deriving DecidableEq, Repr

/-- The scores record: optional brier and log entries. -/
structure Scores where
  brier : Option ℝ := none
  log : Option ℝ := none

/-- The metadata block of MindBalanceAdvice. -/
structure AdviceMetadata where
  theta : ℝ
  phi : ℝ
  cosine : ℝ
  tangent : ℝ
  tanClamp : ℝ
  normalized : Bool

/-- MindBalanceAdvice: the output record (rationale string omitted; no claim
mentions it). -/
structure MindBalanceAdvice where
  topic : String
  angelSignal : ℝ
  demonSignal : ℝ
  mode : AdvisoryMode
  pPositive : ℝ
  pNegative : ℝ
  decision : Decision
  confidence : ℝ
  scores : Option Scores := none
  metadata : AdviceMetadata

/-- The three errors thrown by MindBalanceTool.validateInputs, in source
order: the cosine-range error, the phi-singularity error, and the
"tanClamp must be positive" error. -/
inductive MindBalanceError where
  | invalidCosine
  | invalidPhi
  | invalidTanClamp
deriving DecidableEq, Repr

/-- clampMag(x, m) = Math.sign(x) * Math.min(Math.abs(x), m). -/
noncomputable def clampMag (x m : ℝ) : ℝ :=
  Real.sign x * min |x| m

/-- logistic(z) = 1 / (1 + Math.exp(-z)). -/
noncomputable def logistic (z : ℝ) : ℝ :=
  1 / (1 + Real.exp (-z))

/-- zBlend(a, b): mu = (|a| + |b|) / 2 || 1e-9; result (a - b) / (mu * 2).
The JavaScript || replaces a zero mean by 1e-9. -/
noncomputable def zBlend (a b : ℝ) : ℝ :=
  (a - b) / ((if (|a| + |b|) / 2 = 0 then 1e-9 else (|a| + |b|) / 2) * 2)

/-- validateInputs: throws on |cosine| > 1, then on |phi| >= pi/2, then on
(args.tanClamp && args.tanClamp <= 0) — the && makes a supplied 0 falsy,
so only a supplied, nonzero, nonpositive tanClamp throws. -/
noncomputable def validateInputs (args : MindBalanceArgs) : Except MindBalanceError Unit :=
  if 1 < |args.cosine| then Except.error MindBalanceError.invalidCosine
  else if Real.pi / 2 ≤ |args.phi| then Except.error MindBalanceError.invalidPhi
  else match args.tanClamp with
    | some t =>
        if t ≠ 0 ∧ t ≤ 0 then Except.error MindBalanceError.invalidTanClamp
        else Except.ok ()
    | none => Except.ok ()

/-- finalTanClamp = tanClamp ?? config.tanClamp ?? 3.0. -/
noncomputable def finalTanClamp (cfg : MindBalanceConfig) (args : MindBalanceArgs) : ℝ :=
  args.tanClamp.getD (cfg.tanClamp.getD 3.0)

/-- finalNormalize = normalize ?? config.normalize ?? true. -/
def finalNormalize (cfg : MindBalanceConfig) (args : MindBalanceArgs) : Bool :=
  args.normalize.getD (cfg.normalize.getD true)

/-- finalScoring = scoring ?? config.scoring. -/
def finalScoring (cfg : MindBalanceConfig) (args : MindBalanceArgs) : Option ScoringConfig :=
  match args.scoring with
  | some s => some s
  | none => cfg.scoring

/-- cosVal = Math.cos(theta) * cosine. -/
noncomputable def cosVal (args : MindBalanceArgs) : ℝ :=
  Real.cos args.theta * args.cosine

/-- tanVal = clampMag(Math.tan(phi), finalTanClamp) * tangent. -/
noncomputable def tanVal (cfg : MindBalanceConfig) (args : MindBalanceArgs) : ℝ :=
  clampMag (Real.tan args.phi) (finalTanClamp cfg args) * args.tangent

/-- raw = finalNormalize ? zBlend(cosVal, tanVal) : (cosVal - tanVal). -/
noncomputable def raw (cfg : MindBalanceConfig) (args : MindBalanceArgs) : ℝ :=
  if finalNormalize cfg args then zBlend (cosVal args) (tanVal cfg args)
  else cosVal args - tanVal cfg args

/-- pPositive = logistic(raw). -/
noncomputable def pPositive (cfg : MindBalanceConfig) (args : MindBalanceArgs) : ℝ :=
  logistic (raw cfg args)

/-- pNegative = 1 - pPositive. -/
noncomputable def pNegative (cfg : MindBalanceConfig) (args : MindBalanceArgs) : ℝ :=
  1 - pPositive cfg args

/-- defaultT = config.abstainThreshold ?? 0.70. -/
noncomputable def defaultT (cfg : MindBalanceConfig) : ℝ :=
  cfg.abstainThreshold.getD 0.70

/-- abstainThreshold = finalScoring?.abstainThreshold ??
(mode === probabilistic ? defaultT : 1.01). -/
noncomputable def abstainThreshold (cfg : MindBalanceConfig) (args : MindBalanceArgs) : ℝ :=
  ((finalScoring cfg args).bind ScoringConfig.abstainThreshold).getD
    (if args.mode = AdvisoryMode.probabilistic then defaultT cfg else 1.01)

/-- confidence = Math.max(pPositive, pNegative). -/
noncomputable def confidence (cfg : MindBalanceConfig) (args : MindBalanceArgs) : ℝ :=
  max (pPositive cfg args) (pNegative cfg args)

/-- decision = (confidence < abstainThreshold) ? abstain :
(pPositive >= 0.5 ? positive : negative). -/
noncomputable def decision (cfg : MindBalanceConfig) (args : MindBalanceArgs) : Decision :=
  if confidence cfg args < abstainThreshold cfg args then Decision.abstain
  else if 0.5 ≤ pPositive cfg args then Decision.positive else Decision.negative

/-- want = finalScoring?.rules ?? [brier, log]. -/
def want (cfg : MindBalanceConfig) (args : MindBalanceArgs) : List Rule :=
  ((finalScoring cfg args).bind ScoringConfig.rules).getD [Rule.brier, Rule.log]

/-- The value recorded for a requested rule:
abstain ? (finalScoring?.abstentionScore ?? 0.0) : 0.0. -/
noncomputable def ruleScore (cfg : MindBalanceConfig) (args : MindBalanceArgs) : ℝ :=
  if confidence cfg args < abstainThreshold cfg args then
    (((finalScoring cfg args).bind ScoringConfig.abstentionScore).bind id).getD 0.0
  else 0.0

/-- The scores object: a brier entry iff want includes brier, a log entry
iff want includes log, each holding ruleScore. -/
noncomputable def scoresOf (cfg : MindBalanceConfig) (args : MindBalanceArgs) : Scores where
  brier := if Rule.brier ∈ want cfg args then some (ruleScore cfg args) else none
  log := if Rule.log ∈ want cfg args then some (ruleScore cfg args) else none

/-- The advice record built by execute after validation: result.scores is
set only when the scores object is non-empty
(Object.keys(scores).length > 0). -/
noncomputable def executeOk (cfg : MindBalanceConfig) (args : MindBalanceArgs) :
    MindBalanceAdvice where
  topic := args.topic
  angelSignal := cosVal args
  demonSignal := tanVal cfg args
  mode := args.mode
  pPositive := pPositive cfg args
  pNegative := pNegative cfg args
  decision := decision cfg args
  confidence := confidence cfg args
  scores :=
    if (scoresOf cfg args).brier.isSome || (scoresOf cfg args).log.isSome then
      some (scoresOf cfg args)
    else none
  metadata :=
    { theta := args.theta
      phi := args.phi
      cosine := args.cosine
      tangent := args.tangent
      tanClamp := finalTanClamp cfg args
      normalized := finalNormalize cfg args }

/-- MindBalanceTool.execute: validate the inputs, then build the advice. -/
noncomputable def execute (cfg : MindBalanceConfig) (args : MindBalanceArgs) :
    Except MindBalanceError MindBalanceAdvice :=
  match validateInputs args with
  | Except.error e => Except.error e
  | Except.ok _ => Except.ok (executeOk cfg args)

/-! Basic facts about the logistic function. -/

lemma logistic_pos (z : ℝ) : 0 < logistic z := by
  unfold logistic
  positivity

lemma logistic_lt_one (z : ℝ) : logistic z < 1 := by
  unfold logistic
  have h : 0 < Real.exp (-z) := Real.exp_pos _
  rw [div_lt_one (by linarith)]
  linarith

lemma logistic_mono {r s : ℝ} (h : r ≤ s) : logistic r ≤ logistic s := by
  unfold logistic
  have h1 : (0:ℝ) < 1 + Real.exp (-s) := by positivity
  have h2 : Real.exp (-s) ≤ Real.exp (-r) := Real.exp_le_exp.mpr (neg_le_neg h)
  exact one_div_le_one_div_of_le h1 (by linarith)

lemma one_sub_logistic (z : ℝ) : 1 - logistic z = logistic (-z) := by
  unfold logistic
  rw [neg_neg, Real.exp_neg]
  have h : Real.exp z ≠ 0 := (Real.exp_pos z).ne'
  field_simp
  ring

lemma logistic_zero : logistic 0 = 0.5 := by
  unfold logistic
  rw [neg_zero, Real.exp_zero]
  norm_num

lemma logistic_one_gt : (0.7:ℝ) < logistic 1 := by
  unfold logistic
  rw [Real.exp_neg]
  have h0 : (0:ℝ) < Real.exp 1 := Real.exp_pos 1
  have h1 : (2.7182818283:ℝ) < Real.exp 1 := Real.exp_one_gt_d9
  have hinv : (0:ℝ) < (Real.exp 1)⁻¹ := inv_pos.mpr h0
  have hmul : (Real.exp 1)⁻¹ * Real.exp 1 = 1 := inv_mul_cancel₀ h0.ne'
  rw [lt_div_iff₀ (by positivity)]
  nlinarith

lemma logistic_one_lt : logistic 1 < 0.74 := by
  unfold logistic
  rw [Real.exp_neg]
  have h0 : (0:ℝ) < Real.exp 1 := Real.exp_pos 1
  have h1 : Real.exp 1 < 2.7182818286 := Real.exp_one_lt_d9
  have hinv : (0:ℝ) < (Real.exp 1)⁻¹ := inv_pos.mpr h0
  have hmul : (Real.exp 1)⁻¹ * Real.exp 1 = 1 := inv_mul_cancel₀ h0.ne'
  rw [div_lt_iff₀ (by positivity)]
  nlinarith

/-! Basic facts about clampMag. -/

lemma clampMag_zero (m : ℝ) : clampMag 0 m = 0 := by
  simp [clampMag]

lemma clampMag_pos {m x : ℝ} (hm : 0 < m) (hx : 0 < x) : 0 < clampMag x m := by
  unfold clampMag
  rw [Real.sign_of_pos hx, one_mul]
  exact lt_min (abs_pos.mpr hx.ne') hm

lemma clampMag_neg {m x : ℝ} (hm : 0 < m) (hx : x < 0) : clampMag x m < 0 := by
  unfold clampMag
  rw [Real.sign_of_neg hx, neg_one_mul, neg_lt_zero]
  exact lt_min (abs_pos.mpr hx.ne) hm

lemma abs_clampMag_le {m : ℝ} (hm : 0 ≤ m) (x : ℝ) : |clampMag x m| ≤ m := by
  unfold clampMag
  rw [abs_mul]
  have h1 : |Real.sign x| ≤ 1 := by
    rcases Real.sign_apply_eq x with h | h | h <;> rw [h] <;> norm_num
  have h2 : (0:ℝ) ≤ min |x| m := le_min (abs_nonneg x) hm
  calc |Real.sign x| * |min |x| m| ≤ 1 * |min |x| m| :=
        mul_le_mul_of_nonneg_right h1 (abs_nonneg _)
    _ = min |x| m := by rw [one_mul, abs_of_nonneg h2]
    _ ≤ m := min_le_right _ _

lemma sign_clampMag {m : ℝ} (hm : 0 < m) (x : ℝ) :
    Real.sign (clampMag x m) = Real.sign x := by
  rcases lt_trichotomy x 0 with h | h | h
  · rw [Real.sign_of_neg (clampMag_neg hm h), Real.sign_of_neg h]
  · rw [h, clampMag_zero]
  · rw [Real.sign_of_pos (clampMag_pos hm h), Real.sign_of_pos h]

lemma clampMag_eq_zero_iff {m : ℝ} (hm : 0 < m) (x : ℝ) :
    clampMag x m = 0 ↔ x = 0 := by
  constructor
  · intro h
    rcases lt_trichotomy x 0 with hx | hx | hx
    · exact absurd h (clampMag_neg hm hx).ne
    · exact hx
    · exact absurd h (clampMag_pos hm hx).ne'
  · intro h
    rw [h, clampMag_zero]

lemma clampMag_of_abs_le {m x : ℝ} (h : |x| ≤ m) : clampMag x m = x := by
  unfold clampMag
  rw [min_eq_left h]
  rcases lt_trichotomy x 0 with hx | hx | hx
  · rw [Real.sign_of_neg hx, abs_of_neg hx]
    ring
  · rw [hx, abs_zero, mul_zero]
  · rw [Real.sign_of_pos hx, abs_of_pos hx, one_mul]

/-! Basic facts about zBlend. -/

lemma zBlend_abs_le (a b : ℝ) : |zBlend a b| ≤ 1 := by
  unfold zBlend
  by_cases h : (|a| + |b|) / 2 = 0
  · have ha : |a| = 0 := by
      have h1 := abs_nonneg a
      have h2 := abs_nonneg b
      linarith
    have hb : |b| = 0 := by
      have h1 := abs_nonneg a
      have h2 := abs_nonneg b
      linarith
    rw [if_pos h, abs_eq_zero.mp ha, abs_eq_zero.mp hb]
    norm_num
  · rw [if_neg h]
    have hpos : 0 < (|a| + |b|) / 2 := by
      rcases (div_nonneg (by positivity) (by norm_num) : (0:ℝ) ≤ (|a| + |b|) / 2).lt_or_eq
        with hlt | heq
      · exact hlt
      · exact absurd heq.symm h
    rw [abs_div, div_le_one (by positivity)]
    calc |a - b| ≤ |a| + |b| := abs_sub a b
      _ = (|a| + |b|) / 2 * 2 := by ring
      _ ≤ |(|a| + |b|) / 2 * 2| := le_abs_self _

/-! Unfolding execute. -/

lemma execute_ok_iff (cfg : MindBalanceConfig) (args : MindBalanceArgs)
    (a : MindBalanceAdvice) :
    execute cfg args = Except.ok a ↔
      validateInputs args = Except.ok () ∧ a = executeOk cfg args := by
  unfold execute
  cases h : validateInputs args with
  | error e => simp [h]
  | ok u =>
      cases u
      simp [h, eq_comm]

lemma execute_eq_ok (cfg : MindBalanceConfig) (args : MindBalanceArgs)
    (h : validateInputs args = Except.ok ()) :
    execute cfg args = Except.ok (executeOk cfg args) := by
  rw [execute_ok_iff]
  exact ⟨h, rfl⟩

/-! Probability and confidence bounds of the pipeline. -/

lemma pPositive_pos (cfg : MindBalanceConfig) (args : MindBalanceArgs) :
    0 < pPositive cfg args := by
  unfold pPositive
  exact logistic_pos _

lemma pPositive_lt_one (cfg : MindBalanceConfig) (args : MindBalanceArgs) :
    pPositive cfg args < 1 := by
  unfold pPositive
  exact logistic_lt_one _

lemma confidence_ge_half (cfg : MindBalanceConfig) (args : MindBalanceArgs) :
    0.5 ≤ confidence cfg args := by
  unfold confidence pNegative
  rcases le_or_lt 0.5 (pPositive cfg args) with h | h
  · exact le_max_of_le_left h
  · exact le_max_of_le_right (by linarith)

lemma confidence_le_one (cfg : MindBalanceConfig) (args : MindBalanceArgs) :
    confidence cfg args ≤ 1 := by
  unfold confidence pNegative
  have h1 := pPositive_pos cfg args
  have h2 := pPositive_lt_one cfg args
  exact max_le h2.le (by linarith)

lemma decision_eq_abstain_iff (cfg : MindBalanceConfig) (args : MindBalanceArgs) :
    decision cfg args = Decision.abstain ↔
      confidence cfg args < abstainThreshold cfg args := by
  unfold decision
  by_cases h : confidence cfg args < abstainThreshold cfg args
  · simp [h]
  · rw [if_neg h]
    by_cases h2 : 0.5 ≤ pPositive cfg args
    · simp [h2, h]
    · simp [h2, h]

lemma decision_of_not_abstain (cfg : MindBalanceConfig) (args : MindBalanceArgs)
    (h : ¬ confidence cfg args < abstainThreshold cfg args) :
    decision cfg args =
      if 0.5 ≤ pPositive cfg args then Decision.positive else Decision.negative := by
  unfold decision
  rw [if_neg h]

/-- Helper to evaluate validateInputs on concrete argument records. -/
lemma validateInputs_ok_of (args : MindBalanceArgs) (h1 : ¬ 1 < |args.cosine|)
    (h2 : ¬ Real.pi / 2 ≤ |args.phi|)
    (h3 : args.tanClamp = none ∨ ∃ t, args.tanClamp = some t ∧ ¬(t ≠ 0 ∧ t ≤ 0)) :
    validateInputs args = Except.ok () := by
  unfold validateInputs
  rw [if_neg h1, if_neg h2]
  rcases h3 with h | ⟨t, ht, hcond⟩
  · rw [h]
  · rw [ht]
    simp only []
    rw [if_neg hcond]

lemma sqrt_two_bounds : (1.414:ℝ) < Real.sqrt 2 ∧ Real.sqrt 2 < 1.4143 := by
  constructor
  · rw [Real.lt_sqrt (by norm_num)]
    norm_num
  · rw [Real.sqrt_lt' (by norm_num)]
    norm_num

lemma sqrt_three_bounds : (1.732:ℝ) < Real.sqrt 3 ∧ Real.sqrt 3 < 1.7321 := by
  constructor
  · rw [Real.lt_sqrt (by norm_num)]
    norm_num
  · rw [Real.sqrt_lt' (by norm_num)]
    norm_num

/-! Concrete argument records used by the witnesses and counterexamples. -/

/-- A minimal valid probabilistic call: zero angles, zero weights. -/
def argsZero : MindBalanceArgs where
  topic := "zero"
  theta := 0
  phi := 0
  cosine := 0
  tangent := 0
  mode := AdvisoryMode.probabilistic

lemma argsZero_valid : validateInputs argsZero = Except.ok () := by
  apply validateInputs_ok_of
  · norm_num [argsZero]
  · rw [show argsZero.phi = 0 from rfl, abs_zero]
    exact not_le.mpr (by positivity)
  · exact Or.inl rfl

/-- Blend-mode call with full angel weight and no caller scoring:
confidence is logistic(1) but the fallback threshold is 1.01. -/
def argsC1 : MindBalanceArgs where
  topic := "c1"
  theta := 0
  phi := 0
  cosine := 1
  tangent := 0
  mode := AdvisoryMode.blend
  normalize := some false

lemma argsC1_valid : validateInputs argsC1 = Except.ok () := by
  apply validateInputs_ok_of
  · norm_num [argsC1]
  · rw [show argsC1.phi = 0 from rfl, abs_zero]
    exact not_le.mpr (by positivity)
  · exact Or.inl rfl

/-- Blend-mode call with a caller-supplied threshold 0.6. -/
def argsC1w : MindBalanceArgs :=
  { argsC1 with scoring := some { rules := none, abstainThreshold := some 0.6,
                                  abstentionScore := none } }

lemma argsC1w_valid : validateInputs argsC1w = Except.ok () := by
  apply validateInputs_ok_of
  · norm_num [argsC1w, argsC1]
  · rw [show argsC1w.phi = 0 from rfl, abs_zero]
    exact not_le.mpr (by positivity)
  · exact Or.inl rfl

/-- Probabilistic call supplying abstainThreshold = 2, outside [0,1]. -/
def argsC2 : MindBalanceArgs where
  topic := "c2"
  theta := 0
  phi := 0
  cosine := 0
  tangent := 0
  mode := AdvisoryMode.probabilistic
  scoring := some { rules := none, abstainThreshold := some 2, abstentionScore := none }

lemma argsC2_valid : validateInputs argsC2 = Except.ok () := by
  apply validateInputs_ok_of
  · norm_num [argsC2]
  · rw [show argsC2.phi = 0 from rfl, abs_zero]
    exact not_le.mpr (by positivity)
  · exact Or.inl rfl

/-- Valid call except that it supplies tanClamp = 0. -/
def argsC3zero : MindBalanceArgs where
  topic := "c3"
  theta := 0
  phi := 0
  cosine := 0
  tangent := 0
  mode := AdvisoryMode.blend
  tanClamp := some 0

lemma argsC3zero_valid : validateInputs argsC3zero = Except.ok () := by
  apply validateInputs_ok_of
  · norm_num [argsC3zero]
  · rw [show argsC3zero.phi = 0 from rfl, abs_zero]
    exact not_le.mpr (by positivity)
  · refine Or.inr ⟨0, rfl, ?_⟩
    simp

/-- Valid call except that it supplies tanClamp = -1. -/
def argsC3neg : MindBalanceArgs where
  topic := "c3n"
  theta := 0
  phi := 0
  cosine := 0
  tangent := 0
  mode := AdvisoryMode.blend
  tanClamp := some (-1)

lemma argsC3neg_error :
    validateInputs argsC3neg = Except.error MindBalanceError.invalidTanClamp := by
  unfold validateInputs
  rw [if_neg (by norm_num [argsC3neg]), if_neg (by
    rw [show argsC3neg.phi = 0 from rfl, abs_zero]
    exact not_le.mpr (by positivity))]
  rw [show argsC3neg.tanClamp = some (-1) from rfl]
  simp only []
  rw [if_pos (by norm_num)]

/-- Base record for the monotonicity witness: everything zero, no
normalization, blend mode. -/
def argsC6 : MindBalanceArgs where
  topic := "c6"
  theta := 0
  phi := 0
  cosine := 0
  tangent := 0
  mode := AdvisoryMode.blend
  normalize := some false

/-- The empty scoring record. -/
def sc0 : ScoringConfig where

/-- Probabilistic zero call with rules [brier], threshold 0.9,
abstentionScore 0.25. -/
def argsC8 : MindBalanceArgs where
  topic := "c8"
  theta := 0
  phi := 0
  cosine := 0
  tangent := 0
  mode := AdvisoryMode.probabilistic
  normalize := some false
  scoring := some { rules := some [Rule.brier], abstainThreshold := some 0.9,
                    abstentionScore := some (some 0.25) }

lemma argsC8_valid : validateInputs argsC8 = Except.ok () := by
  apply validateInputs_ok_of
  · norm_num [argsC8]
  · rw [show argsC8.phi = 0 from rfl, abs_zero]
    exact not_le.mpr (by positivity)
  · exact Or.inl rfl

/-- The boundary scenario of the spec: theta = pi/4, phi = pi/6,
cosine = 0.7, tangent = 0.4, blend mode, normalize = true. -/
noncomputable def args9 : MindBalanceArgs where
  topic := "boundary"
  theta := Real.pi / 4
  phi := Real.pi / 6
  cosine := 0.7
  tangent := 0.4
  mode := AdvisoryMode.blend
  normalize := some true

lemma args9_valid : validateInputs args9 = Except.ok () := by
  apply validateInputs_ok_of
  · rw [show args9.cosine = 0.7 from rfl, abs_of_nonneg (by norm_num)]
    norm_num
  · rw [show args9.phi = Real.pi / 6 from rfl,
      abs_of_pos (by positivity)]
    have h := Real.pi_pos
    push_neg
    linarith
  · exact Or.inl rfl

/-- Probabilistic, normalized call with caller threshold 0.8. -/
def argsC10 : MindBalanceArgs where
  topic := "c10"
  theta := 0
  phi := 0
  cosine := 1
  tangent := 0
  mode := AdvisoryMode.probabilistic
  normalize := some true
  scoring := some { rules := none, abstainThreshold := some 0.8,
                    abstentionScore := none }

lemma argsC10_valid : validateInputs argsC10 = Except.ok () := by
  apply validateInputs_ok_of
  · norm_num [argsC10]
  · rw [show argsC10.phi = 0 from rfl, abs_zero]
    exact not_le.mpr (by positivity)
  · exact Or.inl rfl

/-! Evaluation lemmas on concrete inputs. -/

lemma raw_of_zero_weights (cfg : MindBalanceConfig) (args : MindBalanceArgs)
    (hc : args.cosine = 0) (ht : args.tangent = 0) : raw cfg args = 0 := by
  have h1 : cosVal args = 0 := by rw [cosVal, hc, mul_zero]
  have h2 : tanVal cfg args = 0 := by rw [tanVal, ht, mul_zero]
  unfold raw
  rw [h1, h2]
  by_cases h : finalNormalize cfg args = true
  · rw [if_pos h]
    unfold zBlend
    simp
  · rw [if_neg h, sub_zero]

lemma confidence_of_zero_weights (cfg : MindBalanceConfig) (args : MindBalanceArgs)
    (hc : args.cosine = 0) (ht : args.tangent = 0) : confidence cfg args = 0.5 := by
  unfold confidence pNegative pPositive
  rw [raw_of_zero_weights cfg args hc ht, logistic_zero]
  norm_num

lemma abstainThreshold_of_scoring (cfg : MindBalanceConfig) (args : MindBalanceArgs)
    (s : ScoringConfig) (t : ℝ) (hs : args.scoring = some s)
    (ht : s.abstainThreshold = some t) : abstainThreshold cfg args = t := by
  unfold abstainThreshold finalScoring
  rw [hs]
  simp only [Option.some_bind, ht, Option.getD_some]

lemma argsC1_raw : raw defaultMindBalanceConfig argsC1 = 1 := by
  unfold raw
  rw [if_neg (by rw [show finalNormalize defaultMindBalanceConfig argsC1 = false from rfl]; simp)]
  unfold cosVal tanVal
  rw [show argsC1.theta = 0 from rfl, show argsC1.cosine = 1 from rfl,
    show argsC1.tangent = 0 from rfl, Real.cos_zero, mul_one, mul_zero, sub_zero]

lemma argsC1_confidence : confidence defaultMindBalanceConfig argsC1 = logistic 1 := by
  unfold confidence pNegative pPositive
  rw [argsC1_raw]
  have h := logistic_one_gt
  rw [max_eq_left (by linarith)]

lemma argsC1_threshold : abstainThreshold defaultMindBalanceConfig argsC1 = 1.01 := rfl

lemma argsC1w_raw : raw defaultMindBalanceConfig argsC1w = 1 := by
  unfold raw
  rw [if_neg (by
    rw [show finalNormalize defaultMindBalanceConfig argsC1w = false from rfl]; simp)]
  unfold cosVal tanVal
  rw [show argsC1w.theta = 0 from rfl, show argsC1w.cosine = 1 from rfl,
    show argsC1w.tangent = 0 from rfl, Real.cos_zero, mul_one, mul_zero, sub_zero]

lemma argsC1w_confidence : confidence defaultMindBalanceConfig argsC1w = logistic 1 := by
  unfold confidence pNegative pPositive
  rw [argsC1w_raw]
  have h := logistic_one_gt
  rw [max_eq_left (by linarith)]

lemma mem_or_of_ne_nil {l : List Rule} (h : l ≠ []) :
    Rule.brier ∈ l ∨ Rule.log ∈ l := by
  cases l with
  | nil => exact absurd rfl h
  | cons r t =>
      cases r
      · exact Or.inl (List.mem_cons_self _ _)
      · exact Or.inr (List.mem_cons_self _ _)

lemma scoresOf_brier (cfg : MindBalanceConfig) (args : MindBalanceArgs) :
    (scoresOf cfg args).brier =
      if Rule.brier ∈ want cfg args then some (ruleScore cfg args) else none := rfl

lemma scoresOf_log (cfg : MindBalanceConfig) (args : MindBalanceArgs) :
    (scoresOf cfg args).log =
      if Rule.log ∈ want cfg args then some (ruleScore cfg args) else none := rfl

lemma scores_present_iff (cfg : MindBalanceConfig) (args : MindBalanceArgs) :
    ((scoresOf cfg args).brier.isSome || (scoresOf cfg args).log.isSome) = true
      ↔ want cfg args ≠ [] := by
  constructor
  · intro h hnil
    rw [Bool.or_eq_true] at h
    rcases h with h | h
    · rw [scoresOf_brier] at h
      by_cases hm : Rule.brier ∈ want cfg args
      · rw [hnil] at hm
        exact absurd hm (List.not_mem_nil _)
      · rw [if_neg hm] at h
        simp at h
    · rw [scoresOf_log] at h
      by_cases hm : Rule.log ∈ want cfg args
      · rw [hnil] at hm
        exact absurd hm (List.not_mem_nil _)
      · rw [if_neg hm] at h
        simp at h
  · intro h
    rw [Bool.or_eq_true]
    rcases mem_or_of_ne_nil h with hm | hm
    · left
      rw [scoresOf_brier, if_pos hm]
      rfl
    · right
      rw [scoresOf_log, if_pos hm]
      rfl

lemma logistic_neg_one_eq : logistic (-1) = 1 / (1 + Real.exp 1) := by
  unfold logistic
  norm_num

lemma logistic_one_eq : logistic 1 = Real.exp 1 / (1 + Real.exp 1) := by
  unfold logistic
  rw [Real.exp_neg]
  have h : Real.exp 1 ≠ 0 := (Real.exp_pos 1).ne'
  have h2 : (0:ℝ) < 1 + Real.exp 1 := by positivity
  field_simp
  ring

/-! The claims. -/

/-- C4: for every valid input, pPositive + pNegative equals 1 (hence is 1
within 1e-9), and confidence = max(pPositive, pNegative) lies in the closed
interval [0.5, 1]. -/
theorem range_invariant_C4 (cfg : MindBalanceConfig) (args : MindBalanceArgs)
    (a : MindBalanceAdvice) (h : execute cfg args = Except.ok a) :
    a.pPositive + a.pNegative = 1 ∧ |a.pPositive + a.pNegative - 1| ≤ 1e-9 ∧
    a.confidence = max a.pPositive a.pNegative ∧
    0.5 ≤ a.confidence ∧ a.confidence ≤ 1 := by
  obtain ⟨-, rfl⟩ := (execute_ok_iff cfg args a).mp h
  refine ⟨?_, ?_, rfl, confidence_ge_half cfg args, confidence_le_one cfg args⟩
  · show pPositive cfg args + pNegative cfg args = 1
    unfold pNegative
    ring
  · show |pPositive cfg args + pNegative cfg args - 1| ≤ 1e-9
    unfold pNegative
    rw [show pPositive cfg args + (1 - pPositive cfg args) - 1 = 0 by ring, abs_zero]
    norm_num

/-- Witness for C4 at the concrete valid input argsZero. -/
theorem range_invariant_C4_witness :
    (executeOk defaultMindBalanceConfig argsZero).pPositive +
        (executeOk defaultMindBalanceConfig argsZero).pNegative = 1 ∧
    |(executeOk defaultMindBalanceConfig argsZero).pPositive +
        (executeOk defaultMindBalanceConfig argsZero).pNegative - 1| ≤ 1e-9 ∧
    (executeOk defaultMindBalanceConfig argsZero).confidence =
      max (executeOk defaultMindBalanceConfig argsZero).pPositive
        (executeOk defaultMindBalanceConfig argsZero).pNegative ∧
    0.5 ≤ (executeOk defaultMindBalanceConfig argsZero).confidence ∧
    (executeOk defaultMindBalanceConfig argsZero).confidence ≤ 1 :=
  range_invariant_C4 defaultMindBalanceConfig argsZero _
    (execute_eq_ok defaultMindBalanceConfig argsZero argsZero_valid)

/-- C5: for phi in the open interval (-pi/2, pi/2) and any clamp bound c > 0,
the clamped tangent has magnitude at most c, its sign equals the sign of
tan(phi), and it is zero exactly when tan(phi) is zero. -/
theorem clamp_invariant_C5 (phi c : ℝ) (h1 : -(Real.pi / 2) < phi)
    (h2 : phi < Real.pi / 2) (hc : 0 < c) :
    |clampMag (Real.tan phi) c| ≤ c ∧
    Real.sign (clampMag (Real.tan phi) c) = Real.sign (Real.tan phi) ∧
    (clampMag (Real.tan phi) c = 0 ↔ Real.tan phi = 0) :=
  ⟨abs_clampMag_le hc.le _, sign_clampMag hc _, clampMag_eq_zero_iff hc _⟩

/-- Witness for C5 at phi = 0, c = 1. -/
theorem clamp_invariant_C5_witness :
    |clampMag (Real.tan 0) 1| ≤ 1 ∧
    Real.sign (clampMag (Real.tan 0) 1) = Real.sign (Real.tan 0) ∧
    (clampMag (Real.tan 0) 1 = 0 ↔ Real.tan 0 = 0) :=
  clamp_invariant_C5 0 1
    (by have := Real.pi_pos; linarith)
    (by have := Real.pi_pos; linarith)
    one_pos

/-- C6: holding everything else fixed, two calls that supply caller
abstention thresholds t1 < t2 satisfy: if the t1 call abstains then the t2
call abstains as well. -/
theorem abstention_monotonicity_C6 (cfg : MindBalanceConfig) (args : MindBalanceArgs)
    (sc : ScoringConfig) (t1 t2 : ℝ) (hlt : t1 < t2) (a1 a2 : MindBalanceAdvice)
    (h1 : execute cfg
        { args with scoring := some { sc with abstainThreshold := some t1 } } = Except.ok a1)
    (h2 : execute cfg
        { args with scoring := some { sc with abstainThreshold := some t2 } } = Except.ok a2)
    (ha : a1.decision = Decision.abstain) : a2.decision = Decision.abstain := by
  obtain ⟨-, rfl⟩ := (execute_ok_iff _ _ _).mp h1
  obtain ⟨-, rfl⟩ := (execute_ok_iff _ _ _).mp h2
  have hth1 : abstainThreshold cfg
      { args with scoring := some { sc with abstainThreshold := some t1 } } = t1 :=
    abstainThreshold_of_scoring _ _ _ _ rfl rfl
  have hth2 : abstainThreshold cfg
      { args with scoring := some { sc with abstainThreshold := some t2 } } = t2 :=
    abstainThreshold_of_scoring _ _ _ _ rfl rfl
  have hconf : confidence cfg
        { args with scoring := some { sc with abstainThreshold := some t2 } } =
      confidence cfg
        { args with scoring := some { sc with abstainThreshold := some t1 } } := rfl
  rw [show (executeOk cfg
      { args with scoring := some { sc with abstainThreshold := some t1 } }).decision =
      decision cfg { args with scoring := some { sc with abstainThreshold := some t1 } }
      from rfl, decision_eq_abstain_iff, hth1] at ha
  show decision cfg
      { args with scoring := some { sc with abstainThreshold := some t2 } } =
    Decision.abstain
  rw [decision_eq_abstain_iff, hth2, hconf]
  linarith

lemma argsC6s_valid (s : Option ScoringConfig) :
    validateInputs { argsC6 with scoring := s } = Except.ok () := by
  apply validateInputs_ok_of
  · norm_num [argsC6]
  · rw [show ({ argsC6 with scoring := s } : MindBalanceArgs).phi = 0 from rfl, abs_zero]
    exact not_le.mpr (by positivity)
  · exact Or.inl rfl

/-- Witness for C6: zero-weight blend call, thresholds 0.9 < 0.95, the first
abstains, hence so does the second. -/
theorem abstention_monotonicity_C6_witness :
    (executeOk defaultMindBalanceConfig
        { argsC6 with scoring := some { sc0 with abstainThreshold := some 0.95 } }).decision =
      Decision.abstain :=
  abstention_monotonicity_C6 defaultMindBalanceConfig argsC6 sc0 0.9 0.95 (by norm_num)
    _ _
    (execute_eq_ok _ _ (argsC6s_valid _))
    (execute_eq_ok _ _ (argsC6s_valid _))
    (by
      show decision defaultMindBalanceConfig
          { argsC6 with scoring := some { sc0 with abstainThreshold := some 0.9 } } =
        Decision.abstain
      rw [decision_eq_abstain_iff,
        confidence_of_zero_weights _ _ rfl rfl,
        abstainThreshold_of_scoring _ _ _ 0.9 rfl rfl]
      norm_num)

/-- C7: the normalized blend is scale-invariant: for all signals a, b and
every positive factor k, zBlend(k a, k b) = zBlend(a, b). -/
theorem zBlend_scale_invariant_C7 (a b k : ℝ) (hk : 0 < k) :
    zBlend (k * a) (k * b) = zBlend a b := by
  unfold zBlend
  rw [abs_mul, abs_mul, abs_of_pos hk]
  by_cases h : (|a| + |b|) / 2 = 0
  · have ha : a = 0 := by
      have h1 := abs_nonneg a
      have h2 := abs_nonneg b
      have : |a| = 0 := by linarith
      exact abs_eq_zero.mp this
    have hb : b = 0 := by
      have h1 := abs_nonneg a
      have h2 := abs_nonneg b
      have : |b| = 0 := by linarith
      exact abs_eq_zero.mp this
    subst ha
    subst hb
    simp
  · have hab : |a| + |b| ≠ 0 := fun hx => h (by rw [hx]; norm_num)
    have habpos : 0 < |a| + |b| := lt_of_le_of_ne (by positivity) (Ne.symm hab)
    have h2 : ¬ (k * |a| + k * |b|) / 2 = 0 := by
      have hkab : 0 < k * (|a| + |b|) := mul_pos hk habpos
      intro hx
      nlinarith
    have hd1 : (0:ℝ) < (k * |a| + k * |b|) / 2 * 2 := by
      have hkab : 0 < k * (|a| + |b|) := mul_pos hk habpos
      nlinarith
    have hd2 : (0:ℝ) < (|a| + |b|) / 2 * 2 := by nlinarith
    rw [if_neg h, if_neg h2, div_eq_div_iff hd1.ne' hd2.ne']
    ring

/-- Witness for C7 at a = 1, b = 0, k = 2. -/
theorem zBlend_scale_invariant_C7_witness :
    zBlend (2 * 1) (2 * 0) = zBlend 1 0 :=
  zBlend_scale_invariant_C7 1 0 2 (by norm_num)

/-- C1 counterexample: valid blend-mode call with no caller-supplied
threshold, under the default configuration (whose mindBalance.abstainThreshold
is 0.70): confidence meets 0.70 and pPositive is at least 0.5, yet the
decision is abstain, because the non-probabilistic fallback threshold is
1.01, not the configuration default. -/
theorem nonprobabilistic_default_counterexample_C1 :
    execute defaultMindBalanceConfig argsC1 =
      Except.ok (executeOk defaultMindBalanceConfig argsC1) ∧
    defaultT defaultMindBalanceConfig = 0.70 ∧
    abstainThreshold defaultMindBalanceConfig argsC1 = 1.01 ∧
    0.70 ≤ (executeOk defaultMindBalanceConfig argsC1).confidence ∧
    0.5 ≤ (executeOk defaultMindBalanceConfig argsC1).pPositive ∧
    (executeOk defaultMindBalanceConfig argsC1).decision = Decision.abstain := by
  refine ⟨execute_eq_ok _ _ argsC1_valid, rfl, argsC1_threshold, ?_, ?_, ?_⟩
  · show (0.70:ℝ) ≤ confidence defaultMindBalanceConfig argsC1
    rw [argsC1_confidence]
    linarith [logistic_one_gt]
  · show (0.5:ℝ) ≤ pPositive defaultMindBalanceConfig argsC1
    unfold pPositive
    rw [argsC1_raw]
    linarith [logistic_one_gt]
  · show decision defaultMindBalanceConfig argsC1 = Decision.abstain
    rw [decision_eq_abstain_iff, argsC1_confidence, argsC1_threshold]
    linarith [logistic_lt_one 1]

/-- C1 amended: for non-probabilistic modes the same threshold comparison is
used, but the fallback threshold when no scoring.abstainThreshold is in
effect is 1.01 (above any confidence, hence always abstain); only a
caller-supplied (or configured scoring) threshold that confidence meets
yields positive/negative by the sign of pPositive. -/
theorem nonprobabilistic_threshold_C1 (cfg : MindBalanceConfig) (args : MindBalanceArgs)
    (a : MindBalanceAdvice) (h : execute cfg args = Except.ok a)
    (hm : args.mode ≠ AdvisoryMode.probabilistic) :
    ((finalScoring cfg args).bind ScoringConfig.abstainThreshold = none →
        abstainThreshold cfg args = 1.01 ∧ a.decision = Decision.abstain) ∧
    (∀ t, (finalScoring cfg args).bind ScoringConfig.abstainThreshold = some t →
        t ≤ a.confidence →
        a.decision = if 0.5 ≤ a.pPositive then Decision.positive else Decision.negative) := by
  obtain ⟨-, rfl⟩ := (execute_ok_iff _ _ _).mp h
  constructor
  · intro hnone
    have hth : abstainThreshold cfg args = 1.01 := by
      unfold abstainThreshold
      rw [hnone, if_neg hm]
      rfl
    refine ⟨hth, ?_⟩
    show decision cfg args = Decision.abstain
    rw [decision_eq_abstain_iff, hth]
    have hc := confidence_le_one cfg args
    linarith
  · intro t hsome hle
    have hth : abstainThreshold cfg args = t := by
      unfold abstainThreshold
      rw [hsome]
      rfl
    show decision cfg args =
      if 0.5 ≤ pPositive cfg args then Decision.positive else Decision.negative
    apply decision_of_not_abstain
    rw [hth]
    exact not_lt.mpr hle

/-- Witness for the amended C1: blend call with caller threshold 0.6, whose
confidence logistic(1) meets it, decides positive. -/
theorem nonprobabilistic_threshold_C1_witness :
    (executeOk defaultMindBalanceConfig argsC1w).decision = Decision.positive := by
  have h := (nonprobabilistic_threshold_C1 defaultMindBalanceConfig argsC1w _
    (execute_eq_ok _ _ argsC1w_valid) (by
      rw [show argsC1w.mode = AdvisoryMode.blend from rfl]
      simp)).2 0.6 rfl (by
        show (0.6:ℝ) ≤ confidence defaultMindBalanceConfig argsC1w
        rw [argsC1w_confidence]
        linarith [logistic_one_gt])
  rw [h, if_pos]
  show (0.5:ℝ) ≤ pPositive defaultMindBalanceConfig argsC1w
  unfold pPositive
  rw [argsC1w_raw]
  linarith [logistic_one_gt]

/-- C2 counterexample: a call that supplies abstainThreshold = 2, outside
[0,1], is accepted: execute returns a result, raising no error at all. -/
theorem threshold_validation_counterexample_C2 :
    abstainThreshold defaultMindBalanceConfig argsC2 = 2 ∧
    execute defaultMindBalanceConfig argsC2 =
      Except.ok (executeOk defaultMindBalanceConfig argsC2) :=
  ⟨rfl, execute_eq_ok _ _ argsC2_valid⟩

/-- C2 amended: score performs no validation of abstainThreshold; an
out-of-range threshold is accepted whenever the other validations pass. A
threshold above 1 forces abstention, a negative threshold makes abstention
impossible. -/
theorem no_threshold_validation_C2 (cfg : MindBalanceConfig) (args : MindBalanceArgs)
    (t : ℝ) (hout : t < 0 ∨ 1 < t)
    (ht : (finalScoring cfg args).bind ScoringConfig.abstainThreshold = some t)
    (hv : validateInputs args = Except.ok ()) :
    execute cfg args = Except.ok (executeOk cfg args) ∧
    (1 < t → (executeOk cfg args).decision = Decision.abstain) ∧
    (t < 0 → (executeOk cfg args).decision ≠ Decision.abstain) := by
  have hth : abstainThreshold cfg args = t := by
    unfold abstainThreshold
    rw [ht]
    rfl
  refine ⟨execute_eq_ok _ _ hv, ?_, ?_⟩
  · intro h1
    show decision cfg args = Decision.abstain
    rw [decision_eq_abstain_iff, hth]
    have hc := confidence_le_one cfg args
    linarith
  · intro h0
    show decision cfg args ≠ Decision.abstain
    rw [Ne, decision_eq_abstain_iff, hth]
    have hc := confidence_ge_half cfg args
    push_neg
    linarith

/-- Witness for the amended C2 at threshold 2. -/
theorem no_threshold_validation_C2_witness :
    execute defaultMindBalanceConfig argsC2 =
      Except.ok (executeOk defaultMindBalanceConfig argsC2) ∧
    (executeOk defaultMindBalanceConfig argsC2).decision = Decision.abstain := by
  have h := no_threshold_validation_C2 defaultMindBalanceConfig argsC2 2
    (Or.inr (by norm_num)) rfl argsC2_valid
  exact ⟨h.1, h.2.1 (by norm_num)⟩

/-- C3: tanClamp = -1 is rejected with the tanClamp error, but tanClamp = 0,
which the claim (and the code's own "tanClamp must be positive" message)
says must also be rejected, is accepted — the truthiness guard skips 0 —
and the run proceeds with an effective clamp of 0. -/
theorem tanClamp_validation_C3 :
    execute defaultMindBalanceConfig argsC3neg =
      Except.error MindBalanceError.invalidTanClamp ∧
    execute defaultMindBalanceConfig argsC3zero =
      Except.ok (executeOk defaultMindBalanceConfig argsC3zero) ∧
    finalTanClamp defaultMindBalanceConfig argsC3zero = 0 := by
  refine ⟨?_, execute_eq_ok _ _ argsC3zero_valid, rfl⟩
  unfold execute
  rw [argsC3neg_error]

/-- C8: whenever the decision is abstain, every requested rule records the
effective abstentionScore (0.0 when absent or null), and the scores field is
present exactly when the requested rule set (default [brier, log]) is
non-empty. -/
theorem abstention_scoring_C8 (cfg : MindBalanceConfig) (args : MindBalanceArgs)
    (a : MindBalanceAdvice) (h : execute cfg args = Except.ok a)
    (ha : a.decision = Decision.abstain) :
    (∀ s, a.scores = some s →
        s.brier = (if Rule.brier ∈ want cfg args
          then some ((((finalScoring cfg args).bind
              ScoringConfig.abstentionScore).bind id).getD 0.0)
          else none) ∧
        s.log = (if Rule.log ∈ want cfg args
          then some ((((finalScoring cfg args).bind
              ScoringConfig.abstentionScore).bind id).getD 0.0)
          else none)) ∧
    (a.scores.isSome ↔ want cfg args ≠ []) := by
  obtain ⟨-, rfl⟩ := (execute_ok_iff _ _ _).mp h
  have habst : confidence cfg args < abstainThreshold cfg args := by
    rw [show (executeOk cfg args).decision = decision cfg args from rfl,
      decision_eq_abstain_iff] at ha
    exact ha
  have hrs : ruleScore cfg args =
      (((finalScoring cfg args).bind ScoringConfig.abstentionScore).bind id).getD 0.0 := by
    unfold ruleScore
    rw [if_pos habst]
  have hs : (executeOk cfg args).scores =
      if (scoresOf cfg args).brier.isSome || (scoresOf cfg args).log.isSome
      then some (scoresOf cfg args) else none := rfl
  constructor
  · intro s hsome
    rw [hs] at hsome
    by_cases hb : ((scoresOf cfg args).brier.isSome || (scoresOf cfg args).log.isSome) = true
    · rw [if_pos hb] at hsome
      have hseq : s = scoresOf cfg args := ((Option.some.injEq _ _).mp hsome).symm
      subst hseq
      rw [scoresOf_brier, scoresOf_log, hrs]
      exact ⟨rfl, rfl⟩
    · rw [if_neg hb] at hsome
      exact absurd hsome (by simp)
  · rw [hs]
    by_cases hb : ((scoresOf cfg args).brier.isSome || (scoresOf cfg args).log.isSome) = true
    · rw [if_pos hb]
      simp only [Option.isSome_some]
      constructor
      · intro _
        exact (scores_present_iff cfg args).mp hb
      · intro _
        trivial
    · rw [if_neg hb]
      simp only [Option.isSome_none]
      constructor
      · intro hfalse
        exact absurd hfalse (by simp)
      · intro hne
        exact absurd ((scores_present_iff cfg args).mpr hne) hb

/-- Witness for C8 at the abstaining call argsC8 (rules [brier], threshold
0.9, abstentionScore 0.25). -/
theorem abstention_scoring_C8_witness :
    (∀ s, (executeOk defaultMindBalanceConfig argsC8).scores = some s →
        s.brier = (if Rule.brier ∈ want defaultMindBalanceConfig argsC8
          then some ((((finalScoring defaultMindBalanceConfig argsC8).bind
              ScoringConfig.abstentionScore).bind id).getD 0.0)
          else none) ∧
        s.log = (if Rule.log ∈ want defaultMindBalanceConfig argsC8
          then some ((((finalScoring defaultMindBalanceConfig argsC8).bind
              ScoringConfig.abstentionScore).bind id).getD 0.0)
          else none)) ∧
    ((executeOk defaultMindBalanceConfig argsC8).scores.isSome ↔
        want defaultMindBalanceConfig argsC8 ≠ []) :=
  abstention_scoring_C8 _ _ _ (execute_eq_ok _ _ argsC8_valid)
    (by
      show decision defaultMindBalanceConfig argsC8 = Decision.abstain
      rw [decision_eq_abstain_iff,
        confidence_of_zero_weights _ _ rfl rfl,
        abstainThreshold_of_scoring _ _ _ 0.9 rfl rfl]
      norm_num)

/-- C9: for every valid input, angelSignal = cos(theta) * cosine and
demonSignal = sign(tan(phi)) * min(|tan(phi)|, effective tanClamp) * tangent;
at theta = pi/4, phi = pi/6, cosine = 0.7, tangent = 0.4, blend mode,
normalize = true and the default clamp 3.0, no clamping occurs and the
signals are 0.4950 and 0.2309 up to 0.0005. -/
theorem signal_formulas_C9 :
    (∀ (cfg : MindBalanceConfig) (args : MindBalanceArgs) (a : MindBalanceAdvice),
        execute cfg args = Except.ok a →
        a.angelSignal = Real.cos args.theta * args.cosine ∧
        a.demonSignal =
          Real.sign (Real.tan args.phi) *
            min |Real.tan args.phi| (finalTanClamp cfg args) * args.tangent) ∧
    (∀ a : MindBalanceAdvice,
        execute defaultMindBalanceConfig args9 = Except.ok a →
        clampMag (Real.tan args9.phi) (finalTanClamp defaultMindBalanceConfig args9) =
          Real.tan args9.phi ∧
        |a.angelSignal - 0.4950| < 0.0005 ∧
        |a.demonSignal - 0.2309| < 0.0005) := by
  have hu : (0:ℝ) < Real.sqrt 3 := by positivity
  obtain ⟨h3a, h3b⟩ := sqrt_three_bounds
  obtain ⟨h2a, h2b⟩ := sqrt_two_bounds
  have htan : Real.tan (Real.pi / 6) = 1 / Real.sqrt 3 := Real.tan_pi_div_six
  have htanpos : (0:ℝ) < Real.tan (Real.pi / 6) := by
    rw [htan]
    positivity
  have htanle : |Real.tan (Real.pi / 6)| ≤ (3.0:ℝ) := by
    rw [abs_of_pos htanpos, htan, div_le_iff₀ hu]
    nlinarith
  have hclampeq : clampMag (Real.tan args9.phi)
      (finalTanClamp defaultMindBalanceConfig args9) = Real.tan args9.phi := by
    rw [show args9.phi = Real.pi / 6 from rfl,
      show finalTanClamp defaultMindBalanceConfig args9 = (3.0:ℝ) from rfl]
    exact clampMag_of_abs_le htanle
  constructor
  · intro cfg args a h
    obtain ⟨-, rfl⟩ := (execute_ok_iff _ _ _).mp h
    exact ⟨rfl, rfl⟩
  · intro a h
    obtain ⟨-, rfl⟩ := (execute_ok_iff _ _ _).mp h
    refine ⟨hclampeq, ?_, ?_⟩
    · show |cosVal args9 - 0.4950| < 0.0005
      unfold cosVal
      rw [show args9.theta = Real.pi / 4 from rfl,
        show args9.cosine = (0.7:ℝ) from rfl, Real.cos_pi_div_four, abs_lt]
      constructor
      · nlinarith
      · nlinarith
    · show |tanVal defaultMindBalanceConfig args9 - 0.2309| < 0.0005
      unfold tanVal
      rw [hclampeq, show args9.tangent = (0.4:ℝ) from rfl,
        show args9.phi = Real.pi / 6 from rfl, htan,
        div_mul_eq_mul_div, one_mul]
      have hlo : (0.2304:ℝ) < 0.4 / Real.sqrt 3 := by
        rw [lt_div_iff₀ hu]
        nlinarith
      have hhi : (0.4:ℝ) / Real.sqrt 3 < 0.2314 := by
        rw [div_lt_iff₀ hu]
        nlinarith
      rw [abs_lt]
      constructor
      · linarith
      · linarith

/-- Witness for C9: the boundary-scenario call itself. -/
theorem signal_formulas_C9_witness :
    (executeOk defaultMindBalanceConfig args9).angelSignal =
      Real.cos args9.theta * args9.cosine ∧
    (clampMag (Real.tan args9.phi) (finalTanClamp defaultMindBalanceConfig args9) =
        Real.tan args9.phi ∧
      |(executeOk defaultMindBalanceConfig args9).angelSignal - 0.4950| < 0.0005 ∧
      |(executeOk defaultMindBalanceConfig args9).demonSignal - 0.2309| < 0.0005) :=
  ⟨(signal_formulas_C9.1 defaultMindBalanceConfig args9 _
      (execute_eq_ok _ _ args9_valid)).1,
    signal_formulas_C9.2 _ (execute_eq_ok _ _ args9_valid)⟩

/-- C10: with normalize = true the raw logistic argument lies in [-1, 1], so
pPositive lies between 1/(1+e) and e/(1+e), confidence never exceeds
logistic(1), and any effective threshold above logistic(1) forces
abstention. -/
theorem normalized_bound_C10 (cfg : MindBalanceConfig) (args : MindBalanceArgs)
    (a : MindBalanceAdvice) (h : execute cfg args = Except.ok a)
    (hn : finalNormalize cfg args = true) :
    |raw cfg args| ≤ 1 ∧
    1 / (1 + Real.exp 1) ≤ a.pPositive ∧
    a.pPositive ≤ Real.exp 1 / (1 + Real.exp 1) ∧
    a.confidence ≤ logistic 1 ∧
    (logistic 1 < abstainThreshold cfg args → a.decision = Decision.abstain) := by
  obtain ⟨-, rfl⟩ := (execute_ok_iff _ _ _).mp h
  have hraw : |raw cfg args| ≤ 1 := by
    unfold raw
    rw [if_pos hn]
    exact zBlend_abs_le _ _
  obtain ⟨hr1, hr2⟩ := abs_le.mp hraw
  have hplo : logistic (-1) ≤ pPositive cfg args := by
    unfold pPositive
    exact logistic_mono hr1
  have hphi : pPositive cfg args ≤ logistic 1 := by
    unfold pPositive
    exact logistic_mono hr2
  have hneg : pNegative cfg args ≤ logistic 1 := by
    unfold pNegative pPositive
    rw [one_sub_logistic]
    exact logistic_mono (by linarith)
  have hconf : confidence cfg args ≤ logistic 1 := by
    unfold confidence
    exact max_le hphi hneg
  refine ⟨hraw, ?_, ?_, hconf, ?_⟩
  · show 1 / (1 + Real.exp 1) ≤ pPositive cfg args
    rw [← logistic_neg_one_eq]
    exact hplo
  · show pPositive cfg args ≤ Real.exp 1 / (1 + Real.exp 1)
    rw [← logistic_one_eq]
    exact hphi
  · intro hgt
    show decision cfg args = Decision.abstain
    rw [decision_eq_abstain_iff]
    exact lt_of_le_of_lt hconf hgt

/-- Witness for C10: normalized probabilistic call with caller threshold 0.8
greater than logistic(1); it abstains. -/
theorem normalized_bound_C10_witness :
    |raw defaultMindBalanceConfig argsC10| ≤ 1 ∧
    1 / (1 + Real.exp 1) ≤ (executeOk defaultMindBalanceConfig argsC10).pPositive ∧
    (executeOk defaultMindBalanceConfig argsC10).pPositive ≤
      Real.exp 1 / (1 + Real.exp 1) ∧
    (executeOk defaultMindBalanceConfig argsC10).confidence ≤ logistic 1 ∧
    (executeOk defaultMindBalanceConfig argsC10).decision = Decision.abstain := by
  have h := normalized_bound_C10 defaultMindBalanceConfig argsC10 _
    (execute_eq_ok _ _ argsC10_valid) rfl
  refine ⟨h.1, h.2.1, h.2.2.1, h.2.2.2.1, ?_⟩
  apply h.2.2.2.2
  rw [show abstainThreshold defaultMindBalanceConfig argsC10 = 0.8 from rfl]
  linarith [logistic_one_lt]
